import Mathlib

/-!
Verification of the script-emission layer of `openmc_cad_adapter`
(`src/openmc_cad_adapter/surfaces.py`).

Each Python surface class becomes a Lean structure carrying the same
fields; each `to_cubit_surface_inner` method becomes a Lean function from
the structure, the entity kind, the half-space node, the extents, the
optional inner world, the hex flag and a starting id counter to the
returned entity id and the emitted command list.  Emitted Cubit text
commands are represented by the inductive type `Cmd`, one constructor per
distinct command template appearing in the source, carrying the numeric
arguments interpolated into the template.  Floating-point coefficients are
modelled by an arbitrary field `α` (instantiated with `ℚ` for concrete
evaluations and with `ℝ` where the source uses `math.sqrt`/`math.acos`).
Python exceptions (`NameError`, `ValueError`, `NotImplementedError`)
become `Except String` results carrying the exception message.
-/

/-- One emitted Cubit command.  Each constructor corresponds to one
f-string template appended to the command list in `surfaces.py` (or, for
`idCapture`, to the id-capture instruction of the entity-id tracker);
the constructor fields are the values interpolated into the template.
Entity ids are natural numbers allocated sequentially. -/
inductive Cmd (α : Type) where
  | brick (x y z : α)
  | cylinder (h r : α)
  | sphereCmd (r : α)
  | torusCmd (major minor : α)
  | frustum (h r top : α)
  | prism (h : α) (sides : ℕ) (r : α)
  | idCapture (entType : String) (id : ℕ)
  | moveCmd (id : ℕ) (x y z : α)
  | rotateAxis (id : ℕ) (axis : String) (angle : α)
  | rotateDir (id : ℕ) (dx dy dz : α)
  | rotateAbout0 (id : ℕ) (ax ay az angle : α)
  | copyReflect (id : ℕ) (axis : String)
  | sectionCmd (id : ℕ) (plane : String) (offset : α) (reverse : Bool)
  | subtract (a b : ℕ)
  | intersect (a b : ℕ)
  | unite (a b : ℕ)
  deriving DecidableEq

/-- The boolean solid-modeling operations among the commands: subtraction,
intersection, union, and the section-with-plane split. -/
def Cmd.isBoolOp {α : Type} : Cmd α → Bool
  | .subtract _ _ => true
  | .intersect _ _ => true
  | .unite _ _ => true
  | .sectionCmd _ _ _ _ => true
  | _ => false

/-- Recognizes a subtraction command. -/
def Cmd.isSubtract {α : Type} : Cmd α → Bool
  | .subtract _ _ => true
  | _ => false

/-- Recognizes a brick-creation command. -/
def Cmd.isBrickCmd {α : Type} : Cmd α → Bool
  | .brick _ _ _ => true
  | _ => false

/-- Recognizes a hexagonal-prism-creation command. -/
def Cmd.isPrismCmd {α : Type} : Cmd α → Bool
  | .prism _ _ _ => true
  | _ => false

/-- Recognizes a translation command. -/
def Cmd.isMoveCmd {α : Type} : Cmd α → Bool
  | .moveCmd _ _ _ _ => true
  | _ => false

/-- Recognizes any rotation command. -/
def Cmd.isRotateCmd {α : Type} : Cmd α → Bool
  | .rotateAxis _ _ _ => true
  | .rotateDir _ _ _ _ => true
  | .rotateAbout0 _ _ _ _ _ => true
  | _ => false

/-- Erases the numeric entity-id fields of a command (replacing them by 0),
leaving the command template and its non-id numeric arguments.  Two command
lists equal after `stripIds` are identical text apart from the entity-id
values substituted into them. -/
def Cmd.stripIds {α : Type} : Cmd α → Cmd α
  | .idCapture t _ => .idCapture t 0
  | .moveCmd _ x y z => .moveCmd 0 x y z
  | .rotateAxis _ a ang => .rotateAxis 0 a ang
  | .rotateDir _ x y z => .rotateDir 0 x y z
  | .rotateAbout0 _ a b c d => .rotateAbout0 0 a b c d
  | .copyReflect _ a => .copyReflect 0 a
  | .sectionCmd _ p o r => .sectionCmd 0 p o r
  | .subtract _ _ => .subtract 0 0
  | .intersect _ _ => .intersect 0 0
  | .unite _ _ => .unite 0 0
  | c => c

/-- A half-space node: a side marker string, `"+"` or `"-"` in practice.
The emission code only reads `node.side`. -/
structure HalfSpaceNode where
  side : String
  deriving DecidableEq

/-- Modelled from the spec: `geom_util.move` (GeometryTransform), the
translation helper, is repository code not under `src/`.  Per §2 and the
testable property of §8 ("zero rotation/move commands (axis already
aligned, center already at origin)"), it appends one move command for the
given entity id and translation vector and emits nothing when the
translation is zero. -/
def move {α : Type} [Field α] [DecidableEq α] (id : ℕ) (x y z : α)
    (cmds : List (Cmd α)) : List (Cmd α) :=
  if x = 0 ∧ y = 0 ∧ z = 0 then cmds else cmds ++ [Cmd.moveCmd id x y z]

/-- Modelled from the spec: `geom_util.rotate` (GeometryTransform), the
rotation helper, is repository code not under `src/`.  Per §2 it produces a
rotate command fragment from the target entity id and the rotation axis
direction cosines (the printed rotation angle is a function of them); no
command is needed when the direction is already the cylinder's native
z-axis. -/
def rotate {α : Type} [Field α] [DecidableEq α] (id : ℕ) (x y z : α)
    (cmds : List (Cmd α)) : List (Cmd α) :=
  if x = 0 ∧ y = 0 then cmds else cmds ++ [Cmd.rotateDir id x y z]

/-- Fields of `CADPlane` (general plane), copied by
`from_openmc_surface_inner` from the openmc surface. -/
structure CADPlane (α : Type) where
  a : α
  b : α
  c : α
  d : α
  boundary_type : String
  albedo : α
  name : String
  surface_id : ℕ

/-- Fields of `CADXPlane`. -/
structure CADXPlane (α : Type) where
  x0 : α
  boundary_type : String
  albedo : α
  name : String
  surface_id : ℕ

/-- Fields of `CADYPlane`. -/
structure CADYPlane (α : Type) where
  y0 : α
  boundary_type : String
  albedo : α
  name : String
  surface_id : ℕ

/-- Fields of `CADZPlane`. -/
structure CADZPlane (α : Type) where
  z0 : α
  boundary_type : String
  albedo : α
  name : String
  surface_id : ℕ

/-- Fields of `CADCylinder` (general cylinder with axis direction
`dx, dy, dz`). -/
structure CADCylinder (α : Type) where
  r : α
  x0 : α
  y0 : α
  z0 : α
  dx : α
  dy : α
  dz : α
  boundary_type : String
  albedo : α
  name : String
  surface_id : ℕ

/-- Fields of `CADXCylinder`. -/
structure CADXCylinder (α : Type) where
  r : α
  y0 : α
  z0 : α
  boundary_type : String
  albedo : α
  name : String
  surface_id : ℕ

/-- Fields of `CADYCylinder`. -/
structure CADYCylinder (α : Type) where
  r : α
  x0 : α
  z0 : α
  boundary_type : String
  albedo : α
  name : String
  surface_id : ℕ

/-- Fields of `CADZCylinder`. -/
structure CADZCylinder (α : Type) where
  r : α
  x0 : α
  y0 : α
  boundary_type : String
  albedo : α
  name : String
  surface_id : ℕ

/-- Fields of `CADSphere`. -/
structure CADSphere (α : Type) where
  r : α
  x0 : α
  y0 : α
  z0 : α
  boundary_type : String
  albedo : α
  name : String
  surface_id : ℕ

/-- Fields of `CADXCone` (also the field set of `CADYCone` and
`CADZCone`). -/
structure CADXCone (α : Type) where
  x0 : α
  y0 : α
  z0 : α
  r2 : α
  boundary_type : String
  albedo : α
  name : String
  surface_id : ℕ

/-- Fields of `CADYCone`. -/
structure CADYCone (α : Type) where
  x0 : α
  y0 : α
  z0 : α
  r2 : α
  boundary_type : String
  albedo : α
  name : String
  surface_id : ℕ

/-- Fields of `CADZCone`. -/
structure CADZCone (α : Type) where
  x0 : α
  y0 : α
  z0 : α
  r2 : α
  boundary_type : String
  albedo : α
  name : String
  surface_id : ℕ

/-- Fields of the shared torus base class `CADTorus`, copied by
`CADTorus.from_openmc_surface_inner`; the axis-specific subclasses
`CADXTorus`, `CADYTorus`, `CADZTorus` add only their emission methods. -/
structure CADTorus (α : Type) where
  x0 : α
  y0 : α
  z0 : α
  a : α
  b : α
  c : α
  boundary_type : String
  albedo : α
  name : String
  surface_id : ℕ

/-- An openmc torus surface description (`openmc.XTorus` and friends):
the coefficient fields plus the id/name/boundary-type/albedo tuple read by
`from_openmc_surface_inner`.  The openmc constructor places no constraint
on `b` versus `c`. -/
structure OMCTorus (α : Type) where
  x0 : α
  y0 : α
  z0 : α
  a : α
  b : α
  c : α
  boundary_type : String
  albedo : α
  name : String
  id : ℕ

/-- An openmc general cone surface description (`openmc.Cone`). -/
structure OMCCone (α : Type) where
  x0 : α
  y0 : α
  z0 : α
  r2 : α
  dx : α
  dy : α
  dz : α
  boundary_type : String
  albedo : α
  name : String
  id : ℕ

/-- `CADTorus.from_openmc_surface_inner`: a pure field-by-field copy of
the openmc torus surface; no coefficient validation happens here. -/
def CADTorus.from_openmc_surface_inner {α : Type} (surface : OMCTorus α) :
    CADTorus α :=
  ⟨surface.x0, surface.y0, surface.z0, surface.a, surface.b, surface.c,
   surface.boundary_type, surface.albedo, surface.name, surface.id⟩

/-- `CADSurface.from_openmc_surface` for the torus family: the base-class
wrapper only suppresses warnings around `from_openmc_surface_inner`, so it
is the same pure copy. -/
def CADTorus.from_openmc_surface {α : Type} (surface : OMCTorus α) :
    CADTorus α :=
  CADTorus.from_openmc_surface_inner surface

/-- `CADCone.from_openmc_surface`: the general (non-axis-aligned) cone
class unconditionally raises `NotImplementedError` at construction. -/
def CADCone.from_openmc_surface {α : Type} (_surface : OMCCone α) :
    Except String Unit :=
  .error "General Cones are not yet supported"

/-- `CADCone.to_cubit_surface`: the general cone class unconditionally
raises `NotImplementedError` at emission as well. -/
def CADCone.to_cubit_surface {α : Type} (_ent_type : String)
    (_node : HalfSpaceNode) (_extents : α × α × α)
    (_inner_world : Option (α × α × α)) (_hex : Bool) :
    Except String (ℕ × List (Cmd α)) :=
  .error "General Cones are not yet supported"

/-- `CADXPlane.reverse` (identical in the Y and Z variants): the section
command carries the `reverse` keyword exactly when the requested side is
the negative marker. -/
def CADXPlane.reverse (node : HalfSpaceNode) : Bool :=
  node.side == "-"

/-- `CADXPlane.to_cubit_surface_inner`: build a world-extents brick and
section it with an x-plane at `x0`, reversed for the negative side.
Id `n+1` is the id captured after the brick creation. -/
def CADXPlane.to_cubit_surface_inner {α : Type} (s : CADXPlane α)
    (ent_type : String) (node : HalfSpaceNode) (extents : α × α × α)
    (_inner_world : Option (α × α × α)) (_hex : Bool) (n : ℕ) :
    ℕ × List (Cmd α) :=
  let ids := n + 1
  (ids, [Cmd.brick extents.1 extents.2.1 extents.2.2,
         Cmd.idCapture ent_type ids,
         Cmd.sectionCmd ids "xplane" s.x0 (CADXPlane.reverse node)])

/-- `CADYPlane.to_cubit_surface_inner`: world brick sectioned with a
y-plane at `y0`. -/
def CADYPlane.to_cubit_surface_inner {α : Type} (s : CADYPlane α)
    (ent_type : String) (node : HalfSpaceNode) (extents : α × α × α)
    (_inner_world : Option (α × α × α)) (_hex : Bool) (n : ℕ) :
    ℕ × List (Cmd α) :=
  let ids := n + 1
  (ids, [Cmd.brick extents.1 extents.2.1 extents.2.2,
         Cmd.idCapture ent_type ids,
         Cmd.sectionCmd ids "yplane" s.y0 (CADXPlane.reverse node)])

/-- `CADZPlane.to_cubit_surface_inner`: world brick sectioned with a
z-plane at `z0`. -/
def CADZPlane.to_cubit_surface_inner {α : Type} (s : CADZPlane α)
    (ent_type : String) (node : HalfSpaceNode) (extents : α × α × α)
    (_inner_world : Option (α × α × α)) (_hex : Bool) (n : ℕ) :
    ℕ × List (Cmd α) :=
  let ids := n + 1
  (ids, [Cmd.brick extents.1 extents.2.1 extents.2.2,
         Cmd.idCapture ent_type ids,
         Cmd.sectionCmd ids "zplane" s.z0 (CADXPlane.reverse node)])

/-- `CADZCylinder.to_cubit_surface_inner`: cylinder of height equal to the
z inner-world dimension (else the z extent) and radius `r`; for the
positive side build the clipping solid (hex prism rotated 30 degrees about
z, or inner-world brick, or world-extents brick), subtract the cylinder
from it and translate the result to `(x0, y0, 0)`; for the negative side
translate the bare cylinder.  Ids `n+1` and `n+2` are the ids captured
after the two creation commands. -/
def CADZCylinder.to_cubit_surface_inner {α : Type} [Field α]
    [DecidableEq α] (s : CADZCylinder α) (ent_type : String)
    (node : HalfSpaceNode) (extents : α × α × α)
    (inner_world : Option (α × α × α)) (hex : Bool) (n : ℕ) :
    ℕ × List (Cmd α) :=
  let h : α := match inner_world with
    | some iw => iw.2.2
    | none => extents.2.2
  let ids := n + 1
  let base : List (Cmd α) := [Cmd.cylinder h s.r, Cmd.idCapture ent_type ids]
  if node.side ≠ "-" then
    let wid := n + 2
    let wcmds : List (Cmd α) :=
      match inner_world with
      | some iw =>
        if hex then
          [Cmd.prism iw.2.2 6 (iw.1 / 2), Cmd.idCapture ent_type wid,
           Cmd.rotateAxis wid "z" 30]
        else
          [Cmd.brick iw.1 iw.2.1 iw.2.2, Cmd.idCapture ent_type wid]
      | none =>
        [Cmd.brick extents.1 extents.2.1 extents.2.2,
         Cmd.idCapture ent_type wid]
    (wid, move wid s.x0 s.y0 0 (base ++ wcmds ++ [Cmd.subtract ids wid]))
  else
    (ids, move ids s.x0 s.y0 0 base)

/-- `CADXCylinder.to_cubit_surface_inner`: like the Z variant but the
height comes from the x dimension, the cylinder (and the hex prism) is
rotated about y by 90 degrees, and the final translation is to
`(0, y0, z0)`. -/
def CADXCylinder.to_cubit_surface_inner {α : Type} [Field α]
    [DecidableEq α] (s : CADXCylinder α) (ent_type : String)
    (node : HalfSpaceNode) (extents : α × α × α)
    (inner_world : Option (α × α × α)) (hex : Bool) (n : ℕ) :
    ℕ × List (Cmd α) :=
  let h : α := match inner_world with
    | some iw => iw.1
    | none => extents.1
  let ids := n + 1
  let base : List (Cmd α) :=
    [Cmd.cylinder h s.r, Cmd.idCapture ent_type ids,
     Cmd.rotateAxis ids "y" 90]
  if node.side ≠ "-" then
    let wid := n + 2
    let wcmds : List (Cmd α) :=
      match inner_world with
      | some iw =>
        if hex then
          [Cmd.prism iw.2.2 6 (iw.1 / 2), Cmd.idCapture ent_type wid,
           Cmd.rotateAxis wid "z" 30, Cmd.rotateAxis wid "y" 90]
        else
          [Cmd.brick iw.1 iw.2.1 iw.2.2, Cmd.idCapture ent_type wid]
      | none =>
        [Cmd.brick extents.1 extents.2.1 extents.2.2,
         Cmd.idCapture ent_type wid]
    (wid, move wid 0 s.y0 s.z0 (base ++ wcmds ++ [Cmd.subtract ids wid]))
  else
    (ids, move ids 0 s.y0 s.z0 base)

/-- `CADYCylinder.to_cubit_surface_inner`: like the Z variant but the
height comes from the y dimension, the cylinder (and the hex prism) is
rotated about x by 90 degrees, and the final translation is to
`(x0, 0, z0)`. -/
def CADYCylinder.to_cubit_surface_inner {α : Type} [Field α]
    [DecidableEq α] (s : CADYCylinder α) (ent_type : String)
    (node : HalfSpaceNode) (extents : α × α × α)
    (inner_world : Option (α × α × α)) (hex : Bool) (n : ℕ) :
    ℕ × List (Cmd α) :=
  let h : α := match inner_world with
    | some iw => iw.2.1
    | none => extents.2.1
  let ids := n + 1
  let base : List (Cmd α) :=
    [Cmd.cylinder h s.r, Cmd.idCapture ent_type ids,
     Cmd.rotateAxis ids "x" 90]
  if node.side ≠ "-" then
    let wid := n + 2
    let wcmds : List (Cmd α) :=
      match inner_world with
      | some iw =>
        if hex then
          [Cmd.prism iw.2.2 6 (iw.1 / 2), Cmd.idCapture ent_type wid,
           Cmd.rotateAxis wid "z" 30, Cmd.rotateAxis wid "x" 90]
        else
          [Cmd.brick iw.1 iw.2.1 iw.2.2, Cmd.idCapture ent_type wid]
      | none =>
        [Cmd.brick extents.1 extents.2.1 extents.2.2,
         Cmd.idCapture ent_type wid]
    (wid, move wid s.x0 0 s.z0 (base ++ wcmds ++ [Cmd.subtract ids wid]))
  else
    (ids, move ids s.x0 0 s.z0 base)

/-- `CADCylinder.to_cubit_surface_inner` (general cylinder): cylinder of
height from the z inner-world dimension (else the z extent); for the
positive side with an inner world, build the hex prism or inner brick and
subtract; in the positive-side branch WITHOUT an inner world the source
interpolates the undefined name `w` into the brick command
(`brick x {w[0]} y {w[1]} z {w[2]}`), so evaluating that branch raises
`NameError` instead of returning; finally rotate to the axis direction
cosines and translate to the center.  The first id capture passes no
entity-kind hint (the tracker's default). -/
def CADCylinder.to_cubit_surface_inner {α : Type} [Field α]
    [DecidableEq α] (s : CADCylinder α) (ent_type : String)
    (node : HalfSpaceNode) (extents : α × α × α)
    (inner_world : Option (α × α × α)) (hex : Bool) (n : ℕ) :
    Except String (ℕ × List (Cmd α)) :=
  let h : α := match inner_world with
    | some iw => iw.2.2
    | none => extents.2.2
  let ids := n + 1
  let base : List (Cmd α) := [Cmd.cylinder h s.r, Cmd.idCapture "body" ids]
  if node.side ≠ "-" then
    match inner_world with
    | some iw =>
      let wid := n + 2
      let wcmds : List (Cmd α) :=
        if hex then
          [Cmd.prism iw.2.2 6 (iw.1 / 2), Cmd.idCapture ent_type wid,
           Cmd.rotateAxis wid "z" 30]
        else
          [Cmd.brick iw.1 iw.2.1 iw.2.2, Cmd.idCapture ent_type wid]
      let cmds := base ++ wcmds ++ [Cmd.subtract ids wid]
      .ok (wid, move wid s.x0 s.y0 s.z0 (rotate wid s.dx s.dy s.dz cmds))
    | none => .error "NameError: w is not defined"
  else
    .ok (ids, move ids s.x0 s.y0 s.z0 (rotate ids s.dx s.dy s.dz base))

/-- `CADSphere.to_cubit_surface_inner`: sphere of radius `r` translated to
its center; for the positive side, subtract it from a world-extents
brick and return the brick's id. -/
def CADSphere.to_cubit_surface_inner {α : Type} [Field α] [DecidableEq α]
    (s : CADSphere α) (ent_type : String) (node : HalfSpaceNode)
    (extents : α × α × α) (_inner_world : Option (α × α × α)) (_hex : Bool)
    (n : ℕ) : ℕ × List (Cmd α) :=
  let ids := n + 1
  let base : List (Cmd α) :=
    move ids s.x0 s.y0 s.z0 [Cmd.sphereCmd s.r, Cmd.idCapture ent_type ids]
  if node.side ≠ "-" then
    let wid := n + 2
    (wid, base ++ [Cmd.brick extents.1 extents.2.1 extents.2.2,
                   Cmd.idCapture ent_type wid, Cmd.subtract ids wid])
  else
    (ids, base)

/-- `CADXTorus.to_cubit_surface_inner`: first `check_coeffs` raises
`ValueError` when the two minor radii differ (so no command is ever
emitted for such a torus); otherwise create the torus, rotate it about y
by 90 degrees, and for the positive side subtract it from a
world-extents brick before translating the surviving solid to the torus
center. -/
def CADXTorus.to_cubit_surface_inner {α : Type} [Field α] [DecidableEq α]
    (s : CADTorus α) (ent_type : String) (node : HalfSpaceNode)
    (extents : α × α × α) (_inner_world : Option (α × α × α)) (_hex : Bool)
    (n : ℕ) : Except String (ℕ × List (Cmd α)) :=
  if s.b ≠ s.c then
    .error "Only torri with constant minor radii are supported"
  else
    let ids := n + 1
    let base : List (Cmd α) :=
      [Cmd.torusCmd s.a s.b, Cmd.idCapture ent_type ids,
       Cmd.rotateAxis ids "y" 90]
    if node.side ≠ "-" then
      let wid := n + 2
      .ok (wid, move wid s.x0 s.y0 s.z0
        (base ++ [Cmd.brick extents.1 extents.2.1 extents.2.2,
                  Cmd.idCapture ent_type wid, Cmd.subtract ids wid]))
    else
      .ok (ids, move ids s.x0 s.y0 s.z0 base)

/-- `CADYTorus.to_cubit_surface_inner`: like the X variant but rotated
about x by 90 degrees. -/
def CADYTorus.to_cubit_surface_inner {α : Type} [Field α] [DecidableEq α]
    (s : CADTorus α) (ent_type : String) (node : HalfSpaceNode)
    (extents : α × α × α) (_inner_world : Option (α × α × α)) (_hex : Bool)
    (n : ℕ) : Except String (ℕ × List (Cmd α)) :=
  if s.b ≠ s.c then
    .error "Only torri with constant minor radii are supported"
  else
    let ids := n + 1
    let base : List (Cmd α) :=
      [Cmd.torusCmd s.a s.b, Cmd.idCapture ent_type ids,
       Cmd.rotateAxis ids "x" 90]
    if node.side ≠ "-" then
      let wid := n + 2
      .ok (wid, move wid s.x0 s.y0 s.z0
        (base ++ [Cmd.brick extents.1 extents.2.1 extents.2.2,
                  Cmd.idCapture ent_type wid, Cmd.subtract ids wid]))
    else
      .ok (ids, move ids s.x0 s.y0 s.z0 base)

/-- `CADZTorus.to_cubit_surface_inner`: like the X variant but with no
axis-alignment rotation. -/
def CADZTorus.to_cubit_surface_inner {α : Type} [Field α] [DecidableEq α]
    (s : CADTorus α) (ent_type : String) (node : HalfSpaceNode)
    (extents : α × α × α) (_inner_world : Option (α × α × α)) (_hex : Bool)
    (n : ℕ) : Except String (ℕ × List (Cmd α)) :=
  if s.b ≠ s.c then
    .error "Only torri with constant minor radii are supported"
  else
    let ids := n + 1
    let base : List (Cmd α) :=
      [Cmd.torusCmd s.a s.b, Cmd.idCapture ent_type ids]
    if node.side ≠ "-" then
      let wid := n + 2
      .ok (wid, move wid s.x0 s.y0 s.z0
        (base ++ [Cmd.brick extents.1 extents.2.1 extents.2.2,
                  Cmd.idCapture ent_type wid, Cmd.subtract ids wid]))
    else
      .ok (ids, move ids s.x0 s.y0 s.z0 base)

/-- `np.linalg.norm` of a 3-vector: the square root of the sum of the
squared components. -/
noncomputable def norm3 (a b c : ℝ) : ℝ :=
  Real.sqrt (a * a + b * b + c * c)

/-- `math.degrees`: radians to degrees. -/
noncomputable def degrees (x : ℝ) : ℝ :=
  x * 180 / Real.pi

/-- `math.isclose(a, b, rel_tol, abs_tol)`:
`abs(a-b) <= max(rel_tol * max(abs(a), abs(b)), abs_tol)`.  The source
calls it with the default `rel_tol = 1e-9` and `abs_tol = 1e-6`. -/
def isclose (a b relTol absTol : ℝ) : Prop :=
  |a - b| ≤ max (relTol * max |a| |b|) absTol

noncomputable instance (a b relTol absTol : ℝ) :
    Decidable (isclose a b relTol absTol) := by
  unfold isclose; infer_instance

/-- `CADPlane.to_cubit_surface_inner` (general plane): build a cutter
brick of edge twice the largest extent, move it down by half its height,
rotate it (unless the angle between the plane normal and +z is within the
`math.isclose` tolerance of zero) about the normalized cross product of
+z and the unit normal by that angle, translate it along the normal by
the plane's signed distance `d / norm` from the origin, build the
world-extents brick, then subtract the cutter from the world for the
positive side or intersect the two for the negative side, returning the
world brick's id.  Ids `n+1` (cutter) and `n+2` (world) are the captured
creation ids. -/
noncomputable def CADPlane.to_cubit_surface_inner (s : CADPlane ℝ)
    (ent_type : String) (node : HalfSpaceNode) (extents : ℝ × ℝ × ℝ)
    (_inner_world : Option (ℝ × ℝ × ℝ)) (_hex : Bool) (n : ℕ) :
    ℕ × List (Cmd ℝ) :=
  let nrm := norm3 s.a s.b s.c
  let distance := s.d / nrm
  let max_extent := max (max extents.1 extents.2.1) extents.2.2
  let ids := n + 1
  let nx := s.a / nrm
  let ny := s.b / nrm
  let nz := s.c / nrm
  let angle := degrees (Real.arccos (nx * 0 + ny * 0 + nz * 1))
  let rotCmds : List (Cmd ℝ) :=
    if ¬ isclose angle 0 (1e-9) (1e-6) then
      let rx := 0 * nz - 1 * ny
      let ry := 1 * nx - 0 * nz
      let rz := 0 * ny - 0 * nx
      let rn := norm3 rx ry rz
      [Cmd.rotateAbout0 ids (rx / rn) (ry / rn) (rz / rn) angle]
    else []
  let wid := n + 2
  (wid,
    ([Cmd.brick (2 * max_extent) (2 * max_extent) (2 * max_extent),
      Cmd.idCapture ent_type ids,
      Cmd.moveCmd ids 0 0 (-max_extent)]
     ++ rotCmds
     ++ [Cmd.moveCmd ids (distance * nx) (distance * ny) (distance * nz),
         Cmd.brick extents.1 extents.2.1 extents.2.2,
         Cmd.idCapture ent_type wid])
    ++ [if node.side ≠ "-" then Cmd.subtract ids wid
        else Cmd.intersect ids wid])

/-- `CADXCone.to_cubit_surface_inner`: frustum of height `extents[0]` and
base radius `sqrt(r2) * extents[0]` with apex on top, moved down so the
apex sits at the origin, mirrored about z and united into a double-napped
cone, rotated about y by 90 degrees, translated to the apex location; for
the positive side also subtracted from a world-extents brick. -/
noncomputable def CADXCone.to_cubit_surface_inner (s : CADXCone ℝ)
    (ent_type : String) (node : HalfSpaceNode) (extents : ℝ × ℝ × ℝ)
    (_inner_world : Option (ℝ × ℝ × ℝ)) (_hex : Bool) (n : ℕ) :
    ℕ × List (Cmd ℝ) :=
  let ids := n + 1
  let ids2 := n + 2
  let base : List (Cmd ℝ) :=
    [Cmd.frustum extents.1 (Real.sqrt s.r2 * extents.1) 0,
     Cmd.idCapture ent_type ids,
     Cmd.moveCmd ids 0 0 (-(extents.1 / 2)),
     Cmd.copyReflect ids "z",
     Cmd.idCapture ent_type ids2,
     Cmd.unite ids ids2,
     Cmd.rotateAxis ids "y" 90,
     Cmd.moveCmd ids s.x0 s.y0 s.z0]
  if node.side ≠ "-" then
    let wid := n + 3
    (wid, base ++ [Cmd.brick extents.1 extents.2.1 extents.2.2,
                   Cmd.idCapture ent_type wid, Cmd.subtract ids wid])
  else
    (ids, base)

/-- `CADYCone.to_cubit_surface_inner`: like the X variant with
`extents[1]` and a rotation about x. -/
noncomputable def CADYCone.to_cubit_surface_inner (s : CADYCone ℝ)
    (ent_type : String) (node : HalfSpaceNode) (extents : ℝ × ℝ × ℝ)
    (_inner_world : Option (ℝ × ℝ × ℝ)) (_hex : Bool) (n : ℕ) :
    ℕ × List (Cmd ℝ) :=
  let ids := n + 1
  let ids2 := n + 2
  let base : List (Cmd ℝ) :=
    [Cmd.frustum extents.2.1 (Real.sqrt s.r2 * extents.2.1) 0,
     Cmd.idCapture ent_type ids,
     Cmd.moveCmd ids 0 0 (-(extents.2.1 / 2)),
     Cmd.copyReflect ids "z",
     Cmd.idCapture ent_type ids2,
     Cmd.unite ids ids2,
     Cmd.rotateAxis ids "x" 90,
     Cmd.moveCmd ids s.x0 s.y0 s.z0]
  if node.side ≠ "-" then
    let wid := n + 3
    (wid, base ++ [Cmd.brick extents.1 extents.2.1 extents.2.2,
                   Cmd.idCapture ent_type wid, Cmd.subtract ids wid])
  else
    (ids, base)

/-- `CADZCone.to_cubit_surface_inner`: like the X variant with
`extents[2]` and no axis-alignment rotation. -/
noncomputable def CADZCone.to_cubit_surface_inner (s : CADZCone ℝ)
    (ent_type : String) (node : HalfSpaceNode) (extents : ℝ × ℝ × ℝ)
    (_inner_world : Option (ℝ × ℝ × ℝ)) (_hex : Bool) (n : ℕ) :
    ℕ × List (Cmd ℝ) :=
  let ids := n + 1
  let ids2 := n + 2
  let base : List (Cmd ℝ) :=
    [Cmd.frustum extents.2.2 (Real.sqrt s.r2 * extents.2.2) 0,
     Cmd.idCapture ent_type ids,
     Cmd.moveCmd ids 0 0 (-(extents.2.2 / 2)),
     Cmd.copyReflect ids "z",
     Cmd.idCapture ent_type ids2,
     Cmd.unite ids ids2,
     Cmd.moveCmd ids s.x0 s.y0 s.z0]
  if node.side ≠ "-" then
    let wid := n + 3
    (wid, base ++ [Cmd.brick extents.1 extents.2.1 extents.2.2,
                   Cmd.idCapture ent_type wid, Cmd.subtract ids wid])
  else
    (ids, base)

/-- The closed sum of the fifteen surface kinds registered in
`_CAD_SURFACES` (the abstract base class `CADSurface` with one variant
per concrete subclass), over real coefficients. -/
inductive CADSurface where
  | plane (s : CADPlane ℝ)
  | xplane (s : CADXPlane ℝ)
  | yplane (s : CADYPlane ℝ)
  | zplane (s : CADZPlane ℝ)
  | cylinder (s : CADCylinder ℝ)
  | xcylinder (s : CADXCylinder ℝ)
  | ycylinder (s : CADYCylinder ℝ)
  | zcylinder (s : CADZCylinder ℝ)
  | sphere (s : CADSphere ℝ)
  | xcone (s : CADXCone ℝ)
  | ycone (s : CADYCone ℝ)
  | zcone (s : CADZCone ℝ)
  | xtorus (s : CADTorus ℝ)
  | ytorus (s : CADTorus ℝ)
  | ztorus (s : CADTorus ℝ)

/-- `CADSurface.to_cubit_surface`: the shared driver simply calls the
variant's `to_cubit_surface_inner` (the boundary-condition step is
commented out in the source) and propagates its result; the variants
whose emission cannot raise are wrapped in `Except.ok`. -/
noncomputable def CADSurface.to_cubit_surface (s : CADSurface)
    (ent_type : String) (node : HalfSpaceNode) (extents : ℝ × ℝ × ℝ)
    (inner_world : Option (ℝ × ℝ × ℝ)) (hex : Bool) (n : ℕ) :
    Except String (ℕ × List (Cmd ℝ)) :=
  match s with
  | .plane p => .ok (p.to_cubit_surface_inner ent_type node extents inner_world hex n)
  | .xplane p => .ok (p.to_cubit_surface_inner ent_type node extents inner_world hex n)
  | .yplane p => .ok (p.to_cubit_surface_inner ent_type node extents inner_world hex n)
  | .zplane p => .ok (p.to_cubit_surface_inner ent_type node extents inner_world hex n)
  | .cylinder c => c.to_cubit_surface_inner ent_type node extents inner_world hex n
  | .xcylinder c => .ok (c.to_cubit_surface_inner ent_type node extents inner_world hex n)
  | .ycylinder c => .ok (c.to_cubit_surface_inner ent_type node extents inner_world hex n)
  | .zcylinder c => .ok (c.to_cubit_surface_inner ent_type node extents inner_world hex n)
  | .sphere c => .ok (c.to_cubit_surface_inner ent_type node extents inner_world hex n)
  | .xcone c => .ok (c.to_cubit_surface_inner ent_type node extents inner_world hex n)
  | .ycone c => .ok (c.to_cubit_surface_inner ent_type node extents inner_world hex n)
  | .zcone c => .ok (c.to_cubit_surface_inner ent_type node extents inner_world hex n)
  | .xtorus t => CADXTorus.to_cubit_surface_inner t ent_type node extents inner_world hex n
  | .ytorus t => CADYTorus.to_cubit_surface_inner t ent_type node extents inner_world hex n
  | .ztorus t => CADZTorus.to_cubit_surface_inner t ent_type node extents inner_world hex n

/-- The command list of an emission result, empty when the emission
raised. -/
def cmdsOfE {α : Type} : Except String (ℕ × List (Cmd α)) → List (Cmd α)
  | .ok r => r.2
  | .error _ => []

/-- Claim C7: for a Z-cylinder of radius 2 centered at the origin with
Extents (10,10,10), no inner world, and side `+`, the emitted sequence is
exactly: create the cylinder of height 10 and radius 2, capture its id
(1), create a brick 10 by 10 by 10, capture its id (2), then exactly one
subtract command referencing both prior ids; the returned entity id is
the brick's id 2, not the cylinder's id 1. -/
theorem C7_zcylinder_positive_sequence :
    CADZCylinder.to_cubit_surface_inner
      (⟨2, 0, 0, "transmission", 1, "", 1⟩ : CADZCylinder ℚ)
      "body" ⟨"+"⟩ (10, 10, 10) none false 0
      = (2, [Cmd.cylinder 10 2, Cmd.idCapture "body" 1,
             Cmd.brick 10 10 10, Cmd.idCapture "body" 2,
             Cmd.subtract 1 2]) ∧ (2 : ℕ) ≠ 1 := by
  exact ⟨by rfl, by decide⟩

/-- Claim C3: for the general (non-axis-aligned) cylinder with a
positive (non-`-`) side marker and no inner world, the emission evaluates
the undefined name `w` while building the world clipping brick, so it
raises `NameError` instead of returning a command sequence. -/
theorem C3_general_cylinder_undefined_w {α : Type} [Field α]
    [DecidableEq α] (s : CADCylinder α) (ent_type : String)
    (node : HalfSpaceNode) (extents : α × α × α) (hex : Bool) (n : ℕ)
    (h : node.side ≠ "-") :
    s.to_cubit_surface_inner ent_type node extents none hex n
      = Except.error "NameError: w is not defined" := by
  unfold CADCylinder.to_cubit_surface_inner
  simp [h]

/-- Witness for C3 at a concrete general cylinder with side `+`. -/
theorem C3_general_cylinder_undefined_w_witness :
    (HalfSpaceNode.mk "+").side ≠ "-" ∧
    CADCylinder.to_cubit_surface_inner
      (⟨1, 0, 0, 0, 0, 0, 1, "transmission", 1, "", 1⟩ : CADCylinder ℚ)
      "body" ⟨"+"⟩ (10, 10, 10) none false 0
      = Except.error "NameError: w is not defined" :=
  ⟨by decide, C3_general_cylinder_undefined_w _ "body" ⟨"+"⟩ (10, 10, 10)
    false 0 (by decide)⟩

/-- Counterexample to claim C1 as stated: a Z-cylinder (an axis-aligned
cylinder variant) of radius 2 at the origin with side `-` and no inner
world emits zero boolean operations, not exactly one. -/
theorem C1_counterexample :
    ((CADZCylinder.to_cubit_surface_inner
        (⟨2, 0, 0, "transmission", 1, "", 1⟩ : CADZCylinder ℚ)
        "body" ⟨"-"⟩ (10, 10, 10) none false 0).2.filter
          Cmd.isBoolOp).length ≠ 1 := by
  decide

/-- Counterexample to claim C2 as stated: for an X-torus with minor
radii b = 1 and c = 2, construction (`from_openmc_surface`) succeeds and
returns the coefficient copy, and the failure happens only at emission,
where `to_cubit_surface_inner` raises the ValueError before emitting any
command. -/
theorem C2_counterexample :
    CADTorus.from_openmc_surface
        (⟨0, 0, 0, 3, 1, 2, "transmission", 1, "", 7⟩ : OMCTorus ℚ)
      = (⟨0, 0, 0, 3, 1, 2, "transmission", 1, "", 7⟩ : CADTorus ℚ) ∧
    CADXTorus.to_cubit_surface_inner
        (CADTorus.from_openmc_surface
          (⟨0, 0, 0, 3, 1, 2, "transmission", 1, "", 7⟩ : OMCTorus ℚ))
        "body" ⟨"-"⟩ (10, 10, 10) none false 0
      = Except.error "Only torri with constant minor radii are supported" := by
  exact ⟨rfl, by rfl⟩

/-- Claim C2 (amended): for every torus variant whose two minor-radius
coefficients differ (b ≠ c), construction (`from_openmc_surface`)
succeeds, returning a plain field-by-field copy of the openmc surface;
the failure happens at emission time: `to_cubit_surface_inner` raises
`ValueError` (via `check_coeffs`) before emitting any command, for each
of the X, Y and Z torus variants.  The general (non-axis-aligned) cone,
by contrast, does fail at construction, unconditionally. -/
theorem C2_amended_torus_fails_at_emission {α : Type} [Field α]
    [DecidableEq α] (s : OMCTorus α) (ent_type : String)
    (node : HalfSpaceNode) (extents : α × α × α)
    (iw : Option (α × α × α)) (hex : Bool) (n : ℕ) (oc : OMCCone α)
    (h : s.b ≠ s.c) :
    CADTorus.from_openmc_surface s
      = ⟨s.x0, s.y0, s.z0, s.a, s.b, s.c, s.boundary_type, s.albedo,
         s.name, s.id⟩ ∧
    CADXTorus.to_cubit_surface_inner (CADTorus.from_openmc_surface s)
        ent_type node extents iw hex n
      = Except.error "Only torri with constant minor radii are supported" ∧
    CADYTorus.to_cubit_surface_inner (CADTorus.from_openmc_surface s)
        ent_type node extents iw hex n
      = Except.error "Only torri with constant minor radii are supported" ∧
    CADZTorus.to_cubit_surface_inner (CADTorus.from_openmc_surface s)
        ent_type node extents iw hex n
      = Except.error "Only torri with constant minor radii are supported" ∧
    CADCone.from_openmc_surface oc
      = Except.error "General Cones are not yet supported" := by
  refine ⟨rfl, ?_, ?_, ?_, rfl⟩ <;>
    simp [CADXTorus.to_cubit_surface_inner, CADYTorus.to_cubit_surface_inner,
      CADZTorus.to_cubit_surface_inner, CADTorus.from_openmc_surface,
      CADTorus.from_openmc_surface_inner, h]

/-- Witness for the amended C2 at a concrete torus with b = 1 and
c = 2. -/
theorem C2_amended_torus_fails_at_emission_witness :
    ((⟨0, 0, 0, 3, 1, 2, "transmission", 1, "", 7⟩ : OMCTorus ℚ).b
      ≠ (⟨0, 0, 0, 3, 1, 2, "transmission", 1, "", 7⟩ : OMCTorus ℚ).c) ∧
    (CADTorus.from_openmc_surface
        (⟨0, 0, 0, 3, 1, 2, "transmission", 1, "", 7⟩ : OMCTorus ℚ)
      = (⟨0, 0, 0, 3, 1, 2, "transmission", 1, "", 7⟩ : CADTorus ℚ) ∧
    CADXTorus.to_cubit_surface_inner
        (CADTorus.from_openmc_surface
          (⟨0, 0, 0, 3, 1, 2, "transmission", 1, "", 7⟩ : OMCTorus ℚ))
        "body" ⟨"+"⟩ (10, 10, 10) none false 0
      = Except.error "Only torri with constant minor radii are supported" ∧
    CADYTorus.to_cubit_surface_inner
        (CADTorus.from_openmc_surface
          (⟨0, 0, 0, 3, 1, 2, "transmission", 1, "", 7⟩ : OMCTorus ℚ))
        "body" ⟨"+"⟩ (10, 10, 10) none false 0
      = Except.error "Only torri with constant minor radii are supported" ∧
    CADZTorus.to_cubit_surface_inner
        (CADTorus.from_openmc_surface
          (⟨0, 0, 0, 3, 1, 2, "transmission", 1, "", 7⟩ : OMCTorus ℚ))
        "body" ⟨"+"⟩ (10, 10, 10) none false 0
      = Except.error "Only torri with constant minor radii are supported" ∧
    CADCone.from_openmc_surface
        (⟨0, 0, 0, 1, 0, 0, 1, "transmission", 1, "", 8⟩ : OMCCone ℚ)
      = Except.error "General Cones are not yet supported") :=
  ⟨by decide,
   C2_amended_torus_fails_at_emission _ "body" ⟨"+"⟩ (10, 10, 10) none
     false 0 _ (by decide)⟩

theorem move_getElem {α : Type} [Field α] [DecidableEq α] (id : ℕ)
    (x y z : α) (cmds : List (Cmd α)) (i : ℕ) (h : i < cmds.length) :
    (move id x y z cmds)[i]? = cmds[i]? := by
  unfold move
  split
  · rfl
  · rw [List.getElem?_append, if_pos h]

theorem move_all {α : Type} [Field α] [DecidableEq α] (id : ℕ) (x y z : α)
    (cmds : List (Cmd α)) (p : Cmd α → Bool)
    (hp : ∀ i a b c, p (Cmd.moveCmd i a b c) = true) :
    (move id x y z cmds).all p = cmds.all p := by
  unfold move
  split
  · rfl
  · simp [List.all_append, hp]

theorem rotate_getElem {α : Type} [Field α] [DecidableEq α] (id : ℕ)
    (x y z : α) (cmds : List (Cmd α)) (i : ℕ) (h : i < cmds.length) :
    (rotate id x y z cmds)[i]? = cmds[i]? := by
  unfold rotate
  split
  · rfl
  · rw [List.getElem?_append, if_pos h]

theorem rotate_all {α : Type} [Field α] [DecidableEq α] (id : ℕ)
    (x y z : α) (cmds : List (Cmd α)) (p : Cmd α → Bool)
    (hp : ∀ i a b c, p (Cmd.rotateDir i a b c) = true) :
    (rotate id x y z cmds).all p = cmds.all p := by
  unfold rotate
  split
  · rfl
  · simp [List.all_append, hp]

theorem rotate_length_ge {α : Type} [Field α] [DecidableEq α] (id : ℕ)
    (x y z : α) (cmds : List (Cmd α)) :
    cmds.length ≤ (rotate id x y z cmds).length := by
  unfold rotate
  split
  · exact le_refl _
  · simp

/-- The hex-cutout path property of claim C4 for one emitted command
list, given the starting id counter `n` and the inner world `iw`: some
position `i` holds the prism-creation command with 6 sides and radius
half the first inner-world dimension, a later position `j` holds the
30-degree rotation of that prism (id `n+2`) about the z axis, a still
later position `k` holds the subtraction, and no position holds a
brick-creation command. -/
def hexPathOK {α : Type} [Field α] (n : ℕ) (iw : α × α × α)
    (cmds : List (Cmd α)) : Prop :=
  (∃ i j k : ℕ, i < j ∧ j < k ∧
    cmds[i]? = some (Cmd.prism iw.2.2 6 (iw.1 / 2)) ∧
    cmds[j]? = some (Cmd.rotateAxis (n + 2) "z" 30) ∧
    cmds[k]? = some (Cmd.subtract (n + 1) (n + 2))) ∧
  cmds.all (fun c => !c.isBrickCmd) = true

/-- Claim C4: for each cylinder-family surface (general, X, Y, Z) with an
inner world and the hex flag set and a positive (non-`-`) side marker,
the emitted sequence contains the prism-creation command with `sides 6`
and radius half the first inner-world dimension, followed by a 30-degree
rotation of that prism about the z axis, followed by the subtraction,
and contains no brick-creation command. -/
theorem C4_hex_cutout_path {α : Type} [Field α] [DecidableEq α]
    (r x0 y0 z0 dx dy dz al : α) (bt nm : String) (sid : ℕ)
    (ent_type : String) (node : HalfSpaceNode) (extents : α × α × α)
    (iw : α × α × α) (n : ℕ) (h : node.side ≠ "-") :
    hexPathOK n iw
      (cmdsOfE ((⟨r, x0, y0, z0, dx, dy, dz, bt, al, nm, sid⟩ :
        CADCylinder α).to_cubit_surface_inner ent_type node extents
          (some iw) true n)) ∧
    hexPathOK n iw
      (((⟨r, y0, z0, bt, al, nm, sid⟩ :
        CADXCylinder α).to_cubit_surface_inner ent_type node extents
          (some iw) true n).2) ∧
    hexPathOK n iw
      (((⟨r, x0, z0, bt, al, nm, sid⟩ :
        CADYCylinder α).to_cubit_surface_inner ent_type node extents
          (some iw) true n).2) ∧
    hexPathOK n iw
      (((⟨r, x0, y0, bt, al, nm, sid⟩ :
        CADZCylinder α).to_cubit_surface_inner ent_type node extents
          (some iw) true n).2) := by
  refine ⟨?_, ?_, ?_, ?_⟩
  · unfold CADCylinder.to_cubit_surface_inner
    simp only [h, if_true, ne_eq, not_false_iff, if_pos, cmdsOfE]
    unfold hexPathOK
    refine ⟨⟨2, 4, 5, by norm_num, by norm_num, ?_, ?_, ?_⟩, ?_⟩ <;>
      first
        | (rw [move_getElem _ _ _ _ _ _
              (lt_of_lt_of_le (by simp) (rotate_length_ge _ _ _ _ _)),
            rotate_getElem _ _ _ _ _ _ (by simp)]; rfl)
        | (rw [move_all _ _ _ _ _ _ (fun _ _ _ _ => rfl),
            rotate_all _ _ _ _ _ _ (fun _ _ _ _ => rfl)]
           simp [Cmd.isBrickCmd])
  · unfold CADXCylinder.to_cubit_surface_inner
    simp only [h, if_true, ne_eq, not_false_iff, if_pos]
    unfold hexPathOK
    refine ⟨⟨3, 5, 7, by norm_num, by norm_num, ?_, ?_, ?_⟩, ?_⟩ <;>
      first
        | (rw [move_getElem _ _ _ _ _ _ (by simp)]; rfl)
        | (rw [move_all _ _ _ _ _ _ (fun _ _ _ _ => rfl)]
           simp [Cmd.isBrickCmd])
  · unfold CADYCylinder.to_cubit_surface_inner
    simp only [h, if_true, ne_eq, not_false_iff, if_pos]
    unfold hexPathOK
    refine ⟨⟨3, 5, 7, by norm_num, by norm_num, ?_, ?_, ?_⟩, ?_⟩ <;>
      first
        | (rw [move_getElem _ _ _ _ _ _ (by simp)]; rfl)
        | (rw [move_all _ _ _ _ _ _ (fun _ _ _ _ => rfl)]
           simp [Cmd.isBrickCmd])
  · unfold CADZCylinder.to_cubit_surface_inner
    simp only [h, if_true, ne_eq, not_false_iff, if_pos]
    unfold hexPathOK
    refine ⟨⟨2, 4, 5, by norm_num, by norm_num, ?_, ?_, ?_⟩, ?_⟩ <;>
      first
        | (rw [move_getElem _ _ _ _ _ _ (by simp)]; rfl)
        | (rw [move_all _ _ _ _ _ _ (fun _ _ _ _ => rfl)]
           simp [Cmd.isBrickCmd])

/-- Witness for C4 at a concrete inner world (4,4,6), hex flag true and
side `+`, for all four cylinder variants. -/
theorem C4_hex_cutout_path_witness :
    (HalfSpaceNode.mk "+").side ≠ "-" ∧
    (hexPathOK 0 ((4 : ℚ), 4, 6)
      (cmdsOfE ((⟨1, 1, 2, 3, 0, 0, 1, "transmission", 1, "", 1⟩ :
        CADCylinder ℚ).to_cubit_surface_inner "body" ⟨"+"⟩ (10, 10, 10)
          (some (4, 4, 6)) true 0)) ∧
    hexPathOK 0 ((4 : ℚ), 4, 6)
      (((⟨1, 2, 3, "transmission", 1, "", 1⟩ :
        CADXCylinder ℚ).to_cubit_surface_inner "body" ⟨"+"⟩ (10, 10, 10)
          (some (4, 4, 6)) true 0).2) ∧
    hexPathOK 0 ((4 : ℚ), 4, 6)
      (((⟨1, 1, 3, "transmission", 1, "", 1⟩ :
        CADYCylinder ℚ).to_cubit_surface_inner "body" ⟨"+"⟩ (10, 10, 10)
          (some (4, 4, 6)) true 0).2) ∧
    hexPathOK 0 ((4 : ℚ), 4, 6)
      (((⟨1, 1, 2, "transmission", 1, "", 1⟩ :
        CADZCylinder ℚ).to_cubit_surface_inner "body" ⟨"+"⟩ (10, 10, 10)
          (some (4, 4, 6)) true 0).2)) :=
  ⟨by decide,
   C4_hex_cutout_path 1 1 2 3 0 0 1 1 "transmission" "" 1 "body" ⟨"+"⟩
     (10, 10, 10) (4, 4, 6) 0 (by decide)⟩

/-- The subtract-before-move property of claim C8 for one emitted
command list, given the starting id counter `n`: the list decomposes as a
prefix containing no translation command, then the subtraction of the
primitive (id `n+1`) from the world brick (id `n+2`), then a suffix made
only of translation commands. -/
def subtractBeforeMove {α : Type} (n : ℕ) (cmds : List (Cmd α)) : Prop :=
  ∃ pre post : List (Cmd α),
    cmds = pre ++ Cmd.subtract (n + 1) (n + 2) :: post ∧
    pre.all (fun c => !c.isMoveCmd) = true ∧
    post.all (fun c => c.isMoveCmd) = true

/-- Claim C8: for each axis-aligned torus variant with a positive
(non-`-`) side marker, the subtraction of the torus from the
world-extents brick appears before any translation command: nothing
before the subtract is a move (the world brick is never translated
before the boolean), and everything after it is the final translation of
the surviving solid to the torus center (possibly nothing, when the
center is the origin). -/
theorem C8_torus_subtract_before_move {α : Type} [Field α] [DecidableEq α]
    (x0 y0 z0 a m al : α) (bt nm : String) (sid : ℕ) (ent_type : String)
    (node : HalfSpaceNode) (extents : α × α × α)
    (iw : Option (α × α × α)) (hex : Bool) (n : ℕ)
    (h : node.side ≠ "-") :
    subtractBeforeMove n
      (cmdsOfE (CADXTorus.to_cubit_surface_inner
        (⟨x0, y0, z0, a, m, m, bt, al, nm, sid⟩ : CADTorus α)
        ent_type node extents iw hex n)) ∧
    subtractBeforeMove n
      (cmdsOfE (CADYTorus.to_cubit_surface_inner
        (⟨x0, y0, z0, a, m, m, bt, al, nm, sid⟩ : CADTorus α)
        ent_type node extents iw hex n)) ∧
    subtractBeforeMove n
      (cmdsOfE (CADZTorus.to_cubit_surface_inner
        (⟨x0, y0, z0, a, m, m, bt, al, nm, sid⟩ : CADTorus α)
        ent_type node extents iw hex n)) := by
  refine ⟨?_, ?_, ?_⟩
  · unfold CADXTorus.to_cubit_surface_inner
    simp only [ne_eq, not_true_eq_false, if_false, ite_not, if_pos, h,
      not_false_iff, ite_true, ite_false, cmdsOfE]
    unfold move
    split
    · exact ⟨[Cmd.torusCmd a m, Cmd.idCapture ent_type (n + 1),
        Cmd.rotateAxis (n + 1) "y" 90,
        Cmd.brick extents.1 extents.2.1 extents.2.2,
        Cmd.idCapture ent_type (n + 2)], [],
        by simp, by simp [Cmd.isMoveCmd], rfl⟩
    · exact ⟨[Cmd.torusCmd a m, Cmd.idCapture ent_type (n + 1),
        Cmd.rotateAxis (n + 1) "y" 90,
        Cmd.brick extents.1 extents.2.1 extents.2.2,
        Cmd.idCapture ent_type (n + 2)], [Cmd.moveCmd (n + 2) x0 y0 z0],
        by simp, by simp [Cmd.isMoveCmd], by simp [Cmd.isMoveCmd]⟩
  · unfold CADYTorus.to_cubit_surface_inner
    simp only [ne_eq, not_true_eq_false, if_false, ite_not, if_pos, h,
      not_false_iff, ite_true, ite_false, cmdsOfE]
    unfold move
    split
    · exact ⟨[Cmd.torusCmd a m, Cmd.idCapture ent_type (n + 1),
        Cmd.rotateAxis (n + 1) "x" 90,
        Cmd.brick extents.1 extents.2.1 extents.2.2,
        Cmd.idCapture ent_type (n + 2)], [],
        by simp, by simp [Cmd.isMoveCmd], rfl⟩
    · exact ⟨[Cmd.torusCmd a m, Cmd.idCapture ent_type (n + 1),
        Cmd.rotateAxis (n + 1) "x" 90,
        Cmd.brick extents.1 extents.2.1 extents.2.2,
        Cmd.idCapture ent_type (n + 2)], [Cmd.moveCmd (n + 2) x0 y0 z0],
        by simp, by simp [Cmd.isMoveCmd], by simp [Cmd.isMoveCmd]⟩
  · unfold CADZTorus.to_cubit_surface_inner
    simp only [ne_eq, not_true_eq_false, if_false, ite_not, if_pos, h,
      not_false_iff, ite_true, ite_false, cmdsOfE]
    unfold move
    split
    · exact ⟨[Cmd.torusCmd a m, Cmd.idCapture ent_type (n + 1),
        Cmd.brick extents.1 extents.2.1 extents.2.2,
        Cmd.idCapture ent_type (n + 2)], [],
        by simp, by simp [Cmd.isMoveCmd], rfl⟩
    · exact ⟨[Cmd.torusCmd a m, Cmd.idCapture ent_type (n + 1),
        Cmd.brick extents.1 extents.2.1 extents.2.2,
        Cmd.idCapture ent_type (n + 2)], [Cmd.moveCmd (n + 2) x0 y0 z0],
        by simp, by simp [Cmd.isMoveCmd], by simp [Cmd.isMoveCmd]⟩

/-- Witness for C8 at a concrete torus with side `+` and a nonzero
center, for all three torus variants. -/
theorem C8_torus_subtract_before_move_witness :
    (HalfSpaceNode.mk "+").side ≠ "-" ∧
    (subtractBeforeMove 0
      (cmdsOfE (CADXTorus.to_cubit_surface_inner
        (⟨1, 2, 3, 5, 1, 1, "transmission", 1, "", 4⟩ : CADTorus ℚ)
        "body" ⟨"+"⟩ (10, 10, 10) none false 0)) ∧
    subtractBeforeMove 0
      (cmdsOfE (CADYTorus.to_cubit_surface_inner
        (⟨1, 2, 3, 5, 1, 1, "transmission", 1, "", 4⟩ : CADTorus ℚ)
        "body" ⟨"+"⟩ (10, 10, 10) none false 0)) ∧
    subtractBeforeMove 0
      (cmdsOfE (CADZTorus.to_cubit_surface_inner
        (⟨1, 2, 3, 5, 1, 1, "transmission", 1, "", 4⟩ : CADTorus ℚ)
        "body" ⟨"+"⟩ (10, 10, 10) none false 0))) :=
  ⟨by decide,
   C8_torus_subtract_before_move 1 2 3 5 1 1 "transmission" "" 4 "body"
     ⟨"+"⟩ (10, 10, 10) none false 0 (by decide)⟩

/-- Claim C10: for every cylinder-family surface with side `-`: the
emitted sequence contains no boolean operation, no brick-creation and no
prism-creation command (for any inner world); the hex flag has no effect
on the emission result; and when an inner world is supplied, the first
emitted command is still the cylinder-creation command whose height is
the inner-world dimension along the cylinder's own axis (z for the
general and Z variants, x for X, y for Y). -/
theorem C10_negative_side_no_clipping {α : Type} [Field α] [DecidableEq α]
    (r x0 y0 z0 dx dy dz al : α) (bt nm : String) (sid : ℕ)
    (ent_type : String) (extents : α × α × α) (io : Option (α × α × α))
    (iw : α × α × α) (hx hx' : Bool) (n : ℕ) :
    ((cmdsOfE ((⟨r, x0, y0, z0, dx, dy, dz, bt, al, nm, sid⟩ :
        CADCylinder α).to_cubit_surface_inner ent_type ⟨"-"⟩ extents io hx
          n)).all
        (fun c => !c.isBoolOp && !c.isBrickCmd && !c.isPrismCmd) = true ∧
      ((⟨r, x0, y0, z0, dx, dy, dz, bt, al, nm, sid⟩ :
        CADCylinder α).to_cubit_surface_inner ent_type ⟨"-"⟩ extents io hx n
        = (⟨r, x0, y0, z0, dx, dy, dz, bt, al, nm, sid⟩ :
          CADCylinder α).to_cubit_surface_inner ent_type ⟨"-"⟩ extents io
            hx' n) ∧
      (cmdsOfE ((⟨r, x0, y0, z0, dx, dy, dz, bt, al, nm, sid⟩ :
        CADCylinder α).to_cubit_surface_inner ent_type ⟨"-"⟩ extents
          (some iw) hx n))[0]? = some (Cmd.cylinder iw.2.2 r)) ∧
    ((((⟨r, y0, z0, bt, al, nm, sid⟩ :
        CADXCylinder α).to_cubit_surface_inner ent_type ⟨"-"⟩ extents io hx
          n).2.all
        (fun c => !c.isBoolOp && !c.isBrickCmd && !c.isPrismCmd) = true) ∧
      ((⟨r, y0, z0, bt, al, nm, sid⟩ :
        CADXCylinder α).to_cubit_surface_inner ent_type ⟨"-"⟩ extents io hx
          n
        = (⟨r, y0, z0, bt, al, nm, sid⟩ :
          CADXCylinder α).to_cubit_surface_inner ent_type ⟨"-"⟩ extents io
            hx' n) ∧
      (((⟨r, y0, z0, bt, al, nm, sid⟩ :
        CADXCylinder α).to_cubit_surface_inner ent_type ⟨"-"⟩ extents
          (some iw) hx n).2)[0]? = some (Cmd.cylinder iw.1 r)) ∧
    ((((⟨r, x0, z0, bt, al, nm, sid⟩ :
        CADYCylinder α).to_cubit_surface_inner ent_type ⟨"-"⟩ extents io hx
          n).2.all
        (fun c => !c.isBoolOp && !c.isBrickCmd && !c.isPrismCmd) = true) ∧
      ((⟨r, x0, z0, bt, al, nm, sid⟩ :
        CADYCylinder α).to_cubit_surface_inner ent_type ⟨"-"⟩ extents io hx
          n
        = (⟨r, x0, z0, bt, al, nm, sid⟩ :
          CADYCylinder α).to_cubit_surface_inner ent_type ⟨"-"⟩ extents io
            hx' n) ∧
      (((⟨r, x0, z0, bt, al, nm, sid⟩ :
        CADYCylinder α).to_cubit_surface_inner ent_type ⟨"-"⟩ extents
          (some iw) hx n).2)[0]? = some (Cmd.cylinder iw.2.1 r)) ∧
    ((((⟨r, x0, y0, bt, al, nm, sid⟩ :
        CADZCylinder α).to_cubit_surface_inner ent_type ⟨"-"⟩ extents io hx
          n).2.all
        (fun c => !c.isBoolOp && !c.isBrickCmd && !c.isPrismCmd) = true) ∧
      ((⟨r, x0, y0, bt, al, nm, sid⟩ :
        CADZCylinder α).to_cubit_surface_inner ent_type ⟨"-"⟩ extents io hx
          n
        = (⟨r, x0, y0, bt, al, nm, sid⟩ :
          CADZCylinder α).to_cubit_surface_inner ent_type ⟨"-"⟩ extents io
            hx' n) ∧
      (((⟨r, x0, y0, bt, al, nm, sid⟩ :
        CADZCylinder α).to_cubit_surface_inner ent_type ⟨"-"⟩ extents
          (some iw) hx n).2)[0]? = some (Cmd.cylinder iw.2.2 r)) := by
  refine ⟨⟨?_, ?_, ?_⟩, ⟨?_, ?_, ?_⟩, ⟨?_, ?_, ?_⟩, ⟨?_, ?_, ?_⟩⟩
  · unfold CADCylinder.to_cubit_surface_inner
    simp only [ne_eq, not_true_eq_false, if_false, ite_false, cmdsOfE]
    rw [move_all _ _ _ _ _ _ (fun _ _ _ _ => rfl),
      rotate_all _ _ _ _ _ _ (fun _ _ _ _ => rfl)]
    simp [Cmd.isBoolOp, Cmd.isBrickCmd, Cmd.isPrismCmd]
  · simp [CADCylinder.to_cubit_surface_inner]
  · unfold CADCylinder.to_cubit_surface_inner
    simp only [ne_eq, not_true_eq_false, if_false, ite_false, cmdsOfE]
    rw [move_getElem _ _ _ _ _ _
        (lt_of_lt_of_le (by simp) (rotate_length_ge _ _ _ _ _)),
      rotate_getElem _ _ _ _ _ _ (by simp)]
    rfl
  · unfold CADXCylinder.to_cubit_surface_inner
    simp only [ne_eq, not_true_eq_false, if_false, ite_false]
    rw [move_all _ _ _ _ _ _ (fun _ _ _ _ => rfl)]
    simp [Cmd.isBoolOp, Cmd.isBrickCmd, Cmd.isPrismCmd]
  · simp [CADXCylinder.to_cubit_surface_inner]
  · unfold CADXCylinder.to_cubit_surface_inner
    simp only [ne_eq, not_true_eq_false, if_false, ite_false]
    rw [move_getElem _ _ _ _ _ _ (by simp)]
    rfl
  · unfold CADYCylinder.to_cubit_surface_inner
    simp only [ne_eq, not_true_eq_false, if_false, ite_false]
    rw [move_all _ _ _ _ _ _ (fun _ _ _ _ => rfl)]
    simp [Cmd.isBoolOp, Cmd.isBrickCmd, Cmd.isPrismCmd]
  · simp [CADYCylinder.to_cubit_surface_inner]
  · unfold CADYCylinder.to_cubit_surface_inner
    simp only [ne_eq, not_true_eq_false, if_false, ite_false]
    rw [move_getElem _ _ _ _ _ _ (by simp)]
    rfl
  · unfold CADZCylinder.to_cubit_surface_inner
    simp only [ne_eq, not_true_eq_false, if_false, ite_false]
    rw [move_all _ _ _ _ _ _ (fun _ _ _ _ => rfl)]
    simp [Cmd.isBoolOp, Cmd.isBrickCmd, Cmd.isPrismCmd]
  · simp [CADZCylinder.to_cubit_surface_inner]
  · unfold CADZCylinder.to_cubit_surface_inner
    simp only [ne_eq, not_true_eq_false, if_false, ite_false]
    rw [move_getElem _ _ _ _ _ _ (by simp)]
    rfl

/-- Claim C5: for every general plane and every side marker, the emitted
sequence ends with exactly one boolean command chosen by the side: the
oriented cutter cube (id `n+1`) is subtracted from the world brick
(id `n+2`) when the side marker is not `-` (any non-negative marker
counts as positive), and intersected with it when the side marker is
`-`; in both cases the returned entity id is the world brick's id
`n+2`. -/
theorem C5_general_plane_boolean_and_result (s : CADPlane ℝ)
    (ent_type : String) (node : HalfSpaceNode) (extents : ℝ × ℝ × ℝ)
    (iw : Option (ℝ × ℝ × ℝ)) (hx : Bool) (n : ℕ) :
    (s.to_cubit_surface_inner ent_type node extents iw hx n).1 = n + 2 ∧
    (s.to_cubit_surface_inner ent_type node extents iw hx n).2.getLast?
      = some (if node.side ≠ "-" then Cmd.subtract (n + 1) (n + 2)
              else Cmd.intersect (n + 1) (n + 2)) := by
  simp only [CADPlane.to_cubit_surface_inner]
  refine ⟨trivial, ?_⟩
  rw [List.getLast?_concat]

/-- Claim C6: a general plane whose normal is exactly (0,0,1) emits no
rotation command (the angle 0 is within the `math.isclose` tolerance);
a general plane whose normal (1,0,1) makes a 45-degree angle with +z
emits exactly one rotation command, whose angle is 45 (hence within
1e-6 of 45.0). -/
theorem C6_rotation_skip_tolerance :
    ((⟨0, 0, 1, 5, "transmission", 1, "", 1⟩ :
      CADPlane ℝ).to_cubit_surface_inner "body" ⟨"+"⟩ (10, 10, 10) none
        false 0).2.filter Cmd.isRotateCmd = [] ∧
    ((⟨1, 0, 1, 0, "transmission", 1, "", 2⟩ :
      CADPlane ℝ).to_cubit_surface_inner "body" ⟨"+"⟩ (10, 10, 10) none
        false 0).2.filter Cmd.isRotateCmd
      = [Cmd.rotateAbout0 1 0 1 0 45] ∧
    |(45 : ℝ) - 45| ≤ 1e-6 := by
  refine ⟨?_, ?_, by norm_num⟩
  · simp only [CADPlane.to_cubit_surface_inner]
    rw [show norm3 (0 : ℝ) 0 1 = 1 by norm_num [norm3]]
    rw [show (0 : ℝ) / 1 * 0 + (0 : ℝ) / 1 * 0 + (1 : ℝ) / 1 * 1 = 1 by
      norm_num]
    rw [Real.arccos_one]
    rw [show degrees 0 = 0 by simp [degrees]]
    have hcl : isclose 0 0 (1e-9) (1e-6) := by
      unfold isclose
      simp
    rw [if_neg (not_not_intro hcl)]
    simp [Cmd.isRotateCmd]
  · simp only [CADPlane.to_cubit_surface_inner]
    rw [show norm3 (1 : ℝ) 0 1 = Real.sqrt 2 by norm_num [norm3]]
    rw [show (1 : ℝ) / Real.sqrt 2 * 0 + (0 : ℝ) / Real.sqrt 2 * 0
          + (1 : ℝ) / Real.sqrt 2 * 1 = Real.sqrt 2 / 2 by
      have h2 : Real.sqrt 2 * Real.sqrt 2 = 2 :=
        Real.mul_self_sqrt (by norm_num)
      have hne : Real.sqrt 2 ≠ 0 := by positivity
      field_simp]
    rw [show Real.arccos (Real.sqrt 2 / 2) = Real.pi / 4 by
      rw [← Real.cos_pi_div_four]
      exact Real.arccos_cos (by positivity) (by linarith [Real.pi_pos])]
    rw [show degrees (Real.pi / 4) = 45 by
      unfold degrees
      field_simp
      ring]
    have hncl : ¬ isclose 45 0 (1e-9) (1e-6) := by
      unfold isclose
      intro hc
      rw [show |(45 : ℝ) - 0| = 45 by norm_num] at hc
      rcases le_max_iff.mp hc with h' | h'
      · rw [show |(45 : ℝ)| = 45 by norm_num,
          show |(0 : ℝ)| = 0 by norm_num,
          max_eq_left (by norm_num : (0 : ℝ) ≤ 45)] at h'
        norm_num at h'
      · norm_num at h'
    rw [if_pos hncl]
    rw [show (0 : ℝ) * (1 / Real.sqrt 2) - 1 * (0 / Real.sqrt 2) = 0 by
      norm_num]
    rw [show (1 : ℝ) * (1 / Real.sqrt 2) - 0 * (1 / Real.sqrt 2)
          = 1 / Real.sqrt 2 by ring]
    rw [show (0 : ℝ) * (0 / Real.sqrt 2) - 0 * (1 / Real.sqrt 2) = 0 by
      norm_num]
    rw [show norm3 0 (1 / Real.sqrt 2) 0 = 1 / Real.sqrt 2 by
      unfold norm3
      rw [show (0 : ℝ) * 0 + 1 / Real.sqrt 2 * (1 / Real.sqrt 2) + 0 * 0
            = (1 / Real.sqrt 2) ^ 2 by ring]
      exact Real.sqrt_sq (by positivity)]
    rw [zero_div, div_self (by positivity : (1 / Real.sqrt 2 : ℝ) ≠ 0)]
    simp [Cmd.isRotateCmd]

theorem move_filter {α : Type} [Field α] [DecidableEq α] (id : ℕ)
    (x y z : α) (cmds : List (Cmd α)) (p : Cmd α → Bool)
    (hp : ∀ i a b c, p (Cmd.moveCmd i a b c) = false) :
    (move id x y z cmds).filter p = cmds.filter p := by
  unfold move
  split
  · rfl
  · simp [List.filter_append, hp]

theorem rotate_filter {α : Type} [Field α] [DecidableEq α] (id : ℕ)
    (x y z : α) (cmds : List (Cmd α)) (p : Cmd α → Bool)
    (hp : ∀ i a b c, p (Cmd.rotateDir i a b c) = false) :
    (rotate id x y z cmds).filter p = cmds.filter p := by
  unfold rotate
  split
  · rfl
  · simp [List.filter_append, hp]

/-- Claim C1 (amended): the boolean operations emitted by the
axis-aligned variants are: for the X/Y/Z planes, exactly one `section`
command for either side, carrying the reverse flag exactly when the side
is `-` (never a `subtract`); for the X/Y/Z cylinders and X/Y/Z tori,
exactly one `subtract` for a positive (non-`-`) side and no boolean
operation at all for side `-`; for the X/Y/Z cones, one `unite` (from
the double-nappe construction) for side `-`, and that `unite` followed
by one `subtract` for a positive side. -/
theorem C1_amended_boolean_ops (v x0 y0 z0 a m r r2 al : ℝ)
    (bt nm ent_type : String) (sid : ℕ) (node : HalfSpaceNode)
    (extents : ℝ × ℝ × ℝ) (io : Option (ℝ × ℝ × ℝ)) (hx : Bool) (n : ℕ) :
    (((⟨v, bt, al, nm, sid⟩ : CADXPlane ℝ).to_cubit_surface_inner
        ent_type node extents io hx n).2.filter Cmd.isBoolOp
      = [Cmd.sectionCmd (n + 1) "xplane" v (node.side == "-")]) ∧
    (((⟨v, bt, al, nm, sid⟩ : CADYPlane ℝ).to_cubit_surface_inner
        ent_type node extents io hx n).2.filter Cmd.isBoolOp
      = [Cmd.sectionCmd (n + 1) "yplane" v (node.side == "-")]) ∧
    (((⟨v, bt, al, nm, sid⟩ : CADZPlane ℝ).to_cubit_surface_inner
        ent_type node extents io hx n).2.filter Cmd.isBoolOp
      = [Cmd.sectionCmd (n + 1) "zplane" v (node.side == "-")]) ∧
    (((⟨r, y0, z0, bt, al, nm, sid⟩ :
        CADXCylinder ℝ).to_cubit_surface_inner ent_type node extents io
          hx n).2.filter Cmd.isBoolOp
      = if node.side = "-" then [] else [Cmd.subtract (n + 1) (n + 2)]) ∧
    (((⟨r, x0, z0, bt, al, nm, sid⟩ :
        CADYCylinder ℝ).to_cubit_surface_inner ent_type node extents io
          hx n).2.filter Cmd.isBoolOp
      = if node.side = "-" then [] else [Cmd.subtract (n + 1) (n + 2)]) ∧
    (((⟨r, x0, y0, bt, al, nm, sid⟩ :
        CADZCylinder ℝ).to_cubit_surface_inner ent_type node extents io
          hx n).2.filter Cmd.isBoolOp
      = if node.side = "-" then [] else [Cmd.subtract (n + 1) (n + 2)]) ∧
    ((cmdsOfE (CADXTorus.to_cubit_surface_inner
        (⟨x0, y0, z0, a, m, m, bt, al, nm, sid⟩ : CADTorus ℝ) ent_type
        node extents io hx n)).filter Cmd.isBoolOp
      = if node.side = "-" then [] else [Cmd.subtract (n + 1) (n + 2)]) ∧
    ((cmdsOfE (CADYTorus.to_cubit_surface_inner
        (⟨x0, y0, z0, a, m, m, bt, al, nm, sid⟩ : CADTorus ℝ) ent_type
        node extents io hx n)).filter Cmd.isBoolOp
      = if node.side = "-" then [] else [Cmd.subtract (n + 1) (n + 2)]) ∧
    ((cmdsOfE (CADZTorus.to_cubit_surface_inner
        (⟨x0, y0, z0, a, m, m, bt, al, nm, sid⟩ : CADTorus ℝ) ent_type
        node extents io hx n)).filter Cmd.isBoolOp
      = if node.side = "-" then [] else [Cmd.subtract (n + 1) (n + 2)]) ∧
    (((⟨x0, y0, z0, r2, bt, al, nm, sid⟩ :
        CADXCone ℝ).to_cubit_surface_inner ent_type node extents io hx
          n).2.filter Cmd.isBoolOp
      = if node.side = "-" then [Cmd.unite (n + 1) (n + 2)]
        else [Cmd.unite (n + 1) (n + 2), Cmd.subtract (n + 1) (n + 3)]) ∧
    (((⟨x0, y0, z0, r2, bt, al, nm, sid⟩ :
        CADYCone ℝ).to_cubit_surface_inner ent_type node extents io hx
          n).2.filter Cmd.isBoolOp
      = if node.side = "-" then [Cmd.unite (n + 1) (n + 2)]
        else [Cmd.unite (n + 1) (n + 2), Cmd.subtract (n + 1) (n + 3)]) ∧
    (((⟨x0, y0, z0, r2, bt, al, nm, sid⟩ :
        CADZCone ℝ).to_cubit_surface_inner ent_type node extents io hx
          n).2.filter Cmd.isBoolOp
      = if node.side = "-" then [Cmd.unite (n + 1) (n + 2)]
        else [Cmd.unite (n + 1) (n + 2), Cmd.subtract (n + 1) (n + 3)]) := by
  refine ⟨?_, ?_, ?_, ?_, ?_, ?_, ?_, ?_, ?_, ?_, ?_, ?_⟩ <;>
    first
      | simp [CADXPlane.to_cubit_surface_inner,
          CADYPlane.to_cubit_surface_inner, CADZPlane.to_cubit_surface_inner,
          CADXPlane.reverse, Cmd.isBoolOp]
      | (by_cases h : node.side = "-" <;>
          · simp only [CADXCylinder.to_cubit_surface_inner,
              CADYCylinder.to_cubit_surface_inner,
              CADZCylinder.to_cubit_surface_inner,
              CADXTorus.to_cubit_surface_inner,
              CADYTorus.to_cubit_surface_inner,
              CADZTorus.to_cubit_surface_inner,
              CADXCone.to_cubit_surface_inner,
              CADYCone.to_cubit_surface_inner,
              CADZCone.to_cubit_surface_inner, h, ne_eq,
              not_true_eq_false, not_false_iff, if_true, if_false,
              ite_true, ite_false, cmdsOfE]
            try rcases io with _ | ⟨iw⟩
            all_goals try cases hx
            all_goals
              try simp only [cmdsOfE]
              try rw [move_filter _ _ _ _ _ Cmd.isBoolOp
                (fun _ _ _ _ => rfl)]
              simp [Cmd.isBoolOp, h])

theorem stripEq_plane (p : CADPlane ℝ) (ent_type : String)
    (node : HalfSpaceNode) (extents : ℝ × ℝ × ℝ)
    (io : Option (ℝ × ℝ × ℝ)) (hx : Bool) (n₁ n₂ : ℕ) :
    (p.to_cubit_surface_inner ent_type node extents io hx n₁).2.map
        Cmd.stripIds
      = (p.to_cubit_surface_inner ent_type node extents io hx n₂).2.map
        Cmd.stripIds := by
  simp only [CADPlane.to_cubit_surface_inner]
  split_ifs <;> simp [Cmd.stripIds]

theorem stripEq_xplane (p : CADXPlane ℝ) (ent_type : String)
    (node : HalfSpaceNode) (extents : ℝ × ℝ × ℝ)
    (io : Option (ℝ × ℝ × ℝ)) (hx : Bool) (n₁ n₂ : ℕ) :
    (p.to_cubit_surface_inner ent_type node extents io hx n₁).2.map
        Cmd.stripIds
      = (p.to_cubit_surface_inner ent_type node extents io hx n₂).2.map
        Cmd.stripIds := by
  simp [CADXPlane.to_cubit_surface_inner, Cmd.stripIds]

theorem stripEq_yplane (p : CADYPlane ℝ) (ent_type : String)
    (node : HalfSpaceNode) (extents : ℝ × ℝ × ℝ)
    (io : Option (ℝ × ℝ × ℝ)) (hx : Bool) (n₁ n₂ : ℕ) :
    (p.to_cubit_surface_inner ent_type node extents io hx n₁).2.map
        Cmd.stripIds
      = (p.to_cubit_surface_inner ent_type node extents io hx n₂).2.map
        Cmd.stripIds := by
  simp [CADYPlane.to_cubit_surface_inner, Cmd.stripIds]

theorem stripEq_zplane (p : CADZPlane ℝ) (ent_type : String)
    (node : HalfSpaceNode) (extents : ℝ × ℝ × ℝ)
    (io : Option (ℝ × ℝ × ℝ)) (hx : Bool) (n₁ n₂ : ℕ) :
    (p.to_cubit_surface_inner ent_type node extents io hx n₁).2.map
        Cmd.stripIds
      = (p.to_cubit_surface_inner ent_type node extents io hx n₂).2.map
        Cmd.stripIds := by
  simp [CADZPlane.to_cubit_surface_inner, Cmd.stripIds]

theorem stripEq_cylinder (c : CADCylinder ℝ) (ent_type : String)
    (node : HalfSpaceNode) (extents : ℝ × ℝ × ℝ)
    (io : Option (ℝ × ℝ × ℝ)) (hx : Bool) (n₁ n₂ : ℕ) :
    (c.to_cubit_surface_inner ent_type node extents io hx n₁).map
        (fun res => res.2.map Cmd.stripIds)
      = (c.to_cubit_surface_inner ent_type node extents io hx n₂).map
        (fun res => res.2.map Cmd.stripIds) := by
  simp only [CADCylinder.to_cubit_surface_inner, move, rotate]
  cases io <;> split_ifs <;> simp [Cmd.stripIds, Except.map]

theorem stripEq_xcylinder (c : CADXCylinder ℝ) (ent_type : String)
    (node : HalfSpaceNode) (extents : ℝ × ℝ × ℝ)
    (io : Option (ℝ × ℝ × ℝ)) (hx : Bool) (n₁ n₂ : ℕ) :
    (c.to_cubit_surface_inner ent_type node extents io hx n₁).2.map
        Cmd.stripIds
      = (c.to_cubit_surface_inner ent_type node extents io hx n₂).2.map
        Cmd.stripIds := by
  simp only [CADXCylinder.to_cubit_surface_inner, move]
  cases io <;> split_ifs <;> simp [Cmd.stripIds]

theorem stripEq_ycylinder (c : CADYCylinder ℝ) (ent_type : String)
    (node : HalfSpaceNode) (extents : ℝ × ℝ × ℝ)
    (io : Option (ℝ × ℝ × ℝ)) (hx : Bool) (n₁ n₂ : ℕ) :
    (c.to_cubit_surface_inner ent_type node extents io hx n₁).2.map
        Cmd.stripIds
      = (c.to_cubit_surface_inner ent_type node extents io hx n₂).2.map
        Cmd.stripIds := by
  simp only [CADYCylinder.to_cubit_surface_inner, move]
  cases io <;> split_ifs <;> simp [Cmd.stripIds]

theorem stripEq_zcylinder (c : CADZCylinder ℝ) (ent_type : String)
    (node : HalfSpaceNode) (extents : ℝ × ℝ × ℝ)
    (io : Option (ℝ × ℝ × ℝ)) (hx : Bool) (n₁ n₂ : ℕ) :
    (c.to_cubit_surface_inner ent_type node extents io hx n₁).2.map
        Cmd.stripIds
      = (c.to_cubit_surface_inner ent_type node extents io hx n₂).2.map
        Cmd.stripIds := by
  simp only [CADZCylinder.to_cubit_surface_inner, move]
  cases io <;> split_ifs <;> simp [Cmd.stripIds]

theorem stripEq_sphere (c : CADSphere ℝ) (ent_type : String)
    (node : HalfSpaceNode) (extents : ℝ × ℝ × ℝ)
    (io : Option (ℝ × ℝ × ℝ)) (hx : Bool) (n₁ n₂ : ℕ) :
    (c.to_cubit_surface_inner ent_type node extents io hx n₁).2.map
        Cmd.stripIds
      = (c.to_cubit_surface_inner ent_type node extents io hx n₂).2.map
        Cmd.stripIds := by
  simp only [CADSphere.to_cubit_surface_inner, move]
  split_ifs <;> simp [Cmd.stripIds]

theorem stripEq_xcone (c : CADXCone ℝ) (ent_type : String)
    (node : HalfSpaceNode) (extents : ℝ × ℝ × ℝ)
    (io : Option (ℝ × ℝ × ℝ)) (hx : Bool) (n₁ n₂ : ℕ) :
    (c.to_cubit_surface_inner ent_type node extents io hx n₁).2.map
        Cmd.stripIds
      = (c.to_cubit_surface_inner ent_type node extents io hx n₂).2.map
        Cmd.stripIds := by
  simp only [CADXCone.to_cubit_surface_inner]
  split_ifs <;> simp [Cmd.stripIds]

theorem stripEq_ycone (c : CADYCone ℝ) (ent_type : String)
    (node : HalfSpaceNode) (extents : ℝ × ℝ × ℝ)
    (io : Option (ℝ × ℝ × ℝ)) (hx : Bool) (n₁ n₂ : ℕ) :
    (c.to_cubit_surface_inner ent_type node extents io hx n₁).2.map
        Cmd.stripIds
      = (c.to_cubit_surface_inner ent_type node extents io hx n₂).2.map
        Cmd.stripIds := by
  simp only [CADYCone.to_cubit_surface_inner]
  split_ifs <;> simp [Cmd.stripIds]

theorem stripEq_zcone (c : CADZCone ℝ) (ent_type : String)
    (node : HalfSpaceNode) (extents : ℝ × ℝ × ℝ)
    (io : Option (ℝ × ℝ × ℝ)) (hx : Bool) (n₁ n₂ : ℕ) :
    (c.to_cubit_surface_inner ent_type node extents io hx n₁).2.map
        Cmd.stripIds
      = (c.to_cubit_surface_inner ent_type node extents io hx n₂).2.map
        Cmd.stripIds := by
  simp only [CADZCone.to_cubit_surface_inner]
  split_ifs <;> simp [Cmd.stripIds]

theorem stripEq_xtorus (t : CADTorus ℝ) (ent_type : String)
    (node : HalfSpaceNode) (extents : ℝ × ℝ × ℝ)
    (io : Option (ℝ × ℝ × ℝ)) (hx : Bool) (n₁ n₂ : ℕ) :
    (CADXTorus.to_cubit_surface_inner t ent_type node extents io hx
        n₁).map (fun res => res.2.map Cmd.stripIds)
      = (CADXTorus.to_cubit_surface_inner t ent_type node extents io hx
        n₂).map (fun res => res.2.map Cmd.stripIds) := by
  simp only [CADXTorus.to_cubit_surface_inner, move]
  split_ifs <;> simp [Cmd.stripIds, Except.map]

theorem stripEq_ytorus (t : CADTorus ℝ) (ent_type : String)
    (node : HalfSpaceNode) (extents : ℝ × ℝ × ℝ)
    (io : Option (ℝ × ℝ × ℝ)) (hx : Bool) (n₁ n₂ : ℕ) :
    (CADYTorus.to_cubit_surface_inner t ent_type node extents io hx
        n₁).map (fun res => res.2.map Cmd.stripIds)
      = (CADYTorus.to_cubit_surface_inner t ent_type node extents io hx
        n₂).map (fun res => res.2.map Cmd.stripIds) := by
  simp only [CADYTorus.to_cubit_surface_inner, move]
  split_ifs <;> simp [Cmd.stripIds, Except.map]

theorem stripEq_ztorus (t : CADTorus ℝ) (ent_type : String)
    (node : HalfSpaceNode) (extents : ℝ × ℝ × ℝ)
    (io : Option (ℝ × ℝ × ℝ)) (hx : Bool) (n₁ n₂ : ℕ) :
    (CADZTorus.to_cubit_surface_inner t ent_type node extents io hx
        n₁).map (fun res => res.2.map Cmd.stripIds)
      = (CADZTorus.to_cubit_surface_inner t ent_type node extents io hx
        n₂).map (fun res => res.2.map Cmd.stripIds) := by
  simp only [CADZTorus.to_cubit_surface_inner, move]
  split_ifs <;> simp [Cmd.stripIds, Except.map]

/-- Claim C9: emission is deterministic — for every surface kind and
every combination of entity kind, half-space node, extents, inner world
and hex flag, two runs of `to_cubit_surface` starting from different
(fresh) id counters produce the same outcome (including the failure
cases), with command sequences that are identical apart from the numeric
entity-id values substituted into them. -/
theorem C9_emission_deterministic (s : CADSurface) (ent_type : String)
    (node : HalfSpaceNode) (extents : ℝ × ℝ × ℝ)
    (io : Option (ℝ × ℝ × ℝ)) (hx : Bool) (n₁ n₂ : ℕ) :
    (s.to_cubit_surface ent_type node extents io hx n₁).map
        (fun res => res.2.map Cmd.stripIds)
      = (s.to_cubit_surface ent_type node extents io hx n₂).map
        (fun res => res.2.map Cmd.stripIds) := by
  cases s with
  | plane p =>
    simp only [CADSurface.to_cubit_surface, Except.map]
    rw [stripEq_plane p ent_type node extents io hx n₁ n₂]
  | xplane p =>
    simp only [CADSurface.to_cubit_surface, Except.map]
    rw [stripEq_xplane p ent_type node extents io hx n₁ n₂]
  | yplane p =>
    simp only [CADSurface.to_cubit_surface, Except.map]
    rw [stripEq_yplane p ent_type node extents io hx n₁ n₂]
  | zplane p =>
    simp only [CADSurface.to_cubit_surface, Except.map]
    rw [stripEq_zplane p ent_type node extents io hx n₁ n₂]
  | cylinder c =>
    simp only [CADSurface.to_cubit_surface]
    exact stripEq_cylinder c ent_type node extents io hx n₁ n₂
  | xcylinder c =>
    simp only [CADSurface.to_cubit_surface, Except.map]
    rw [stripEq_xcylinder c ent_type node extents io hx n₁ n₂]
  | ycylinder c =>
    simp only [CADSurface.to_cubit_surface, Except.map]
    rw [stripEq_ycylinder c ent_type node extents io hx n₁ n₂]
  | zcylinder c =>
    simp only [CADSurface.to_cubit_surface, Except.map]
    rw [stripEq_zcylinder c ent_type node extents io hx n₁ n₂]
  | sphere c =>
    simp only [CADSurface.to_cubit_surface, Except.map]
    rw [stripEq_sphere c ent_type node extents io hx n₁ n₂]
  | xcone c =>
    simp only [CADSurface.to_cubit_surface, Except.map]
    rw [stripEq_xcone c ent_type node extents io hx n₁ n₂]
  | ycone c =>
    simp only [CADSurface.to_cubit_surface, Except.map]
    rw [stripEq_ycone c ent_type node extents io hx n₁ n₂]
  | zcone c =>
    simp only [CADSurface.to_cubit_surface, Except.map]
    rw [stripEq_zcone c ent_type node extents io hx n₁ n₂]
  | xtorus t =>
    simp only [CADSurface.to_cubit_surface]
    exact stripEq_xtorus t ent_type node extents io hx n₁ n₂
  | ytorus t =>
    simp only [CADSurface.to_cubit_surface]
    exact stripEq_ytorus t ent_type node extents io hx n₁ n₂
  | ztorus t =>
    simp only [CADSurface.to_cubit_surface]
    exact stripEq_ztorus t ent_type node extents io hx n₁ n₂
